import Mathlib

/-!
Verification development for the SwiftLogistics middleware backend.

This file gives a shallow embedding of the order-orchestration core of the
repository (src/services.py and src/main.py) and proves properties about it.

Modelling conventions:
* Every external behaviour (HTTP response, XML content, TCP response, raised
  exception) is an explicit environment value given to the embedded function.
* Python exception control flow is embedded with Except String: each adapter
  has an `..._attempt` function embedding the body of its try-block (an
  Except.error value is a raised exception), and the adapter function itself
  embeds the try/except statement, mapping every error to the source's
  fallback ("mock") result.
* Timestamps (created_at / updated_at) and fields never read by the modelled
  operations (assigned_driver_id, proof_of_delivery) are omitted; they do not
  affect any claim.
-/

namespace SwiftLogistics

deriving instance DecidableEq for Except

/-- Result dictionary returned by CMSService.submit_order (services.py).
Both the success path and the fallback path return exactly the keys
reference_id and status; `reference_id` is Option because on the success
path it is taken from the text of the ReferenceId XML element, and
ElementTree gives text None for an empty element. -/
structure CMSResult where
  reference_id : Option String
  status : String
deriving Repr, DecidableEq

/-- Outcome of parsing `root.find('.//ReferenceId')` out of the 200-response
body in CMSService.submit_order: the element is absent (find returns None),
or present with its text (which ElementTree reports as None for an empty
element). -/
inductive XmlRef
  | absent
  | present (text : Option String)
deriving Repr, DecidableEq

/-- Behaviour of the CMS transport for one submit_order call (services.py,
CMSService.submit_order):
* ok200: response.status == 200 and the body parses as XML; `ref` is the
  ReferenceId lookup outcome;
* badXml: response.status == 200 but ET.fromstring raises (message msg);
* errStatus: response.status != 200, so the code raises "CMS error: {status}";
* exn: the HTTP call itself raises (timeout, connection refused, any
  exception) with message msg. -/
inductive CMSEnv
  | ok200 (ref : XmlRef)
  | badXml (msg : String)
  | errStatus (code : Nat)
  | exn (msg : String)
deriving Repr, DecidableEq

/-- The try-block of CMSService.submit_order: everything from opening the
HTTP session to building the success dictionary. An Except.error is an
exception raised inside the try-block. The result depends only on the
order id and the transport behaviour (the other order_data fields are only
serialized into the request). -/
def CMSService.submit_order_attempt (order_id : String) (env : CMSEnv) :
    Except String CMSResult :=
  match env with
  | .ok200 .absent => .ok ⟨some ("CMS_" ++ order_id), "submitted"⟩
  | .ok200 (.present t) => .ok ⟨t, "submitted"⟩
  | .badXml m => .error m
  | .errStatus c => .error ("CMS error: " ++ toString c)
  | .exn m => .error m

/-- CMSService.submit_order: the try/except statement. Any exception is
caught and converted into the mock fallback dictionary
\x7b reference_id: "CMS_MOCK_<order_id>", status: "submitted" \x7d. -/
def CMSService.submit_order (order_id : String) (env : CMSEnv) : CMSResult :=
  match CMSService.submit_order_attempt order_id env with
  | .ok r => r
  | .error _ => ⟨some ("CMS_MOCK_" ++ order_id), "submitted"⟩

/-- Result dictionary consumed from WMSService.add_package. The genuine
success path returns json.loads(response) verbatim, an arbitrary JSON
object; the caller (process_order) only reads the package_id key, and the
fallback supplies package_id, warehouse_location and status. Each field is
Option: absent key (or JSON null) is none. -/
structure WMSResult where
  package_id : Option String
  warehouse_location : Option String
  status : Option String
deriving Repr, DecidableEq

/-- Behaviour of the WMS TCP transport for one add_package call:
* okJson: the TCP round trip succeeds and the response decodes as a JSON
  object with the given fields;
* badJson: the TCP round trip succeeds but json.loads raises;
* tcpFail: _send_tcp_message raises, wrapping the underlying error as
  "TCP communication failed: <msg>". -/
inductive WMSEnv
  | okJson (package_id warehouse_location status : Option String)
  | badJson (msg : String)
  | tcpFail (msg : String)
deriving Repr, DecidableEq

/-- The try-block of WMSService.add_package (services.py): send the
ADD_PACKAGE command over TCP and json.loads the response. -/
def WMSService.add_package_attempt (_order_id : String) (env : WMSEnv) :
    Except String WMSResult :=
  match env with
  | .okJson p w s => .ok ⟨p, w, s⟩
  | .badJson m => .error m
  | .tcpFail m => .error ("TCP communication failed: " ++ m)

/-- WMSService.add_package: any exception is caught and converted into the
mock fallback with package_id "WMS_MOCK_<order_id>", warehouse_location
"A-01-15", status "received". -/
def WMSService.add_package (order_id : String) (env : WMSEnv) : WMSResult :=
  match WMSService.add_package_attempt order_id env with
  | .ok r => r
  | .error _ => ⟨some ("WMS_MOCK_" ++ order_id), some "A-01-15", some "received"⟩

/-- Result dictionary returned by ROSService.add_delivery_point.
route_point_id is Option because the success path computes
result.get('id', "ROS_<order_id>"), which yields None when the key is
present and bound to JSON null. -/
structure ROSResult where
  route_point_id : Option String
  estimated_delivery_time : Option String
  route_sequence : Option Nat
deriving Repr, DecidableEq

/-- Outcome of result.get('id', default) in ROSService.add_delivery_point:
the key is absent (the default "ROS_<order_id>" is used) or present with a
value (None for JSON null). -/
inductive JsonField
  | absent
  | present (v : Option String)
deriving Repr, DecidableEq

/-- Behaviour of the ROS HTTP transport for one add_delivery_point call:
* ok201: response.status == 201 and the body parses as JSON; idField is the
  'id' lookup outcome, est and seq the optional estimated_time and sequence;
* errStatus: response.status != 201, so the code raises "ROS error: {status}";
* exn: the HTTP call (or response.json()) raises with message msg. -/
inductive ROSEnv
  | ok201 (idField : JsonField) (est : Option String) (seq : Option Nat)
  | errStatus (code : Nat)
  | exn (msg : String)
deriving Repr, DecidableEq

/-- The try-block of ROSService.add_delivery_point (services.py). -/
def ROSService.add_delivery_point_attempt (order_id : String) (env : ROSEnv) :
    Except String ROSResult :=
  match env with
  | .ok201 .absent est seq => .ok ⟨some ("ROS_" ++ order_id), est, seq⟩
  | .ok201 (.present v) est seq => .ok ⟨v, est, seq⟩
  | .errStatus c => .error ("ROS error: " ++ toString c)
  | .exn m => .error m

/-- ROSService.add_delivery_point: any exception is caught and converted
into the mock fallback with route_point_id "ROS_MOCK_<order_id>",
estimated_delivery_time "14:00", route_sequence 1. -/
def ROSService.add_delivery_point (order_id : String) (env : ROSEnv) : ROSResult :=
  match ROSService.add_delivery_point_attempt order_id env with
  | .ok r => r
  | .error _ => ⟨some ("ROS_MOCK_" ++ order_id), some "14:00", some 1⟩

/-- What happens when MessageBroker.publish_message reaches
channel.basic_publish: the publish succeeds or raises. -/
inductive PublishAttempt
  | ok
  | raises (msg : String)
deriving Repr, DecidableEq

/-- Observable outcome of MessageBroker.publish_message: the early return
when self.channel is None, a successful publish, or a caught-and-logged
publish failure. -/
inductive PublishOutcome
  | notConnected
  | published
  | failedLogged (msg : String)
deriving Repr, DecidableEq

/-- MessageBroker.publish_message (services.py), embedded with Except so
that a raised exception escaping the function would show up as an
Except.error. The source checks self.channel and returns early when the
broker is not connected, and wraps basic_publish in try/except that logs
and swallows any exception, so every branch returns normally (.ok). -/
def MessageBroker.publish_message (connected : Bool) (attempt : PublishAttempt) :
    Except String PublishOutcome :=
  if connected then
    match attempt with
    | .ok => .ok .published
    | .raises m => .ok (.failedLogged m)
  else
    .ok .notConnected

/-- The Order row of models.py, restricted to the fields read or written by
the modelled operations. status is a String at the application level:
main.py assigns plain strings ("submitted", "processing", "failed", and in
update_delivery_status the driver-supplied update_data.status) with no
validation. The three references and error_message are nullable columns,
hence Option. -/
structure Order where
  id : String
  client_id : Nat
  pickup_address : String
  delivery_address : String
  package_details : String
  priority : String
  status : String
  cms_reference : Option String := none
  wms_reference : Option String := none
  ros_reference : Option String := none
  error_message : Option String := none
deriving Repr, DecidableEq

/-- The DeliveryUpdate row of models.py (append-only), restricted to the
fields written by update_delivery_status. -/
structure DeliveryUpdate where
  order_id : String
  driver_id : Nat
  status : String
  notes : Option String
  location : Option String
deriving Repr, DecidableEq

/-- Side effects observable outside persistence: the two bus messages
process_order publishes, the websocket push and the WMS status call of
update_delivery_status. -/
inductive Event
  | orderProcessed (order_id : String) (status : String)
  | orderFailed (order_id : String) (error : String)
  | livePush (client_id : Nat) (order_id : String) (status : String)
  | wmsStatusUpdate (order_id : String) (status : String)
deriving Repr, DecidableEq

/-- The three external systems, used to trace which adapter calls
process_order actually performed. -/
inductive Adapter
  | cms
  | wms
  | ros
deriving Repr, DecidableEq

/-- Persistent state: the orders table and the delivery_updates table. -/
structure DBState where
  orders : List Order
  delivery_updates : List DeliveryUpdate
deriving Repr, DecidableEq

/-- db.query(Order).filter(Order.id == order_id).first() -/
def findOrder (l : List Order) (order_id : String) : Option Order :=
  l.find? (fun o => o.id == order_id)

/-- Committing a mutation of the fetched ORM row: the row with the same
primary key is replaced. -/
def setOrder (l : List Order) (u : Order) : List Order :=
  l.map (fun o => if o.id == u.id then u else o)

/-- POST /orders (main.py create_order): inserts a fresh Order with status
"submitted", no references and no error message. The source generates the
id with uuid4; an id already present would violate the primary key, so the
model leaves the state unchanged in that (source-unreachable) case. -/
def create_order (st : DBState) (order_id : String) (client_id : Nat)
    (pickup delivery details priority : String) : DBState :=
  match findOrder st.orders order_id with
  | some _ => st
  | none =>
    let o : Order :=
      { id := order_id
        client_id := client_id
        pickup_address := pickup
        delivery_address := delivery
        package_details := details
        priority := priority
        status := "submitted" }
    { st with orders := st.orders ++ [o] }

/-- Output of one process_order run: the new persistent state, the bus
messages published, and which adapter calls were reached. -/
structure ProcessOutcome where
  state : DBState
  events : List Event
  calls : List Adapter
deriving Repr, DecidableEq

/-- The except-branch of process_order (main.py): on any exception e raised
inside the try-block, set status to "failed", record str(e) as
error_message (all other fields of the fetched row are left as they were),
commit, and publish order.failed. -/
def processOrderFailed (st : DBState) (o : Order) (e : String)
    (calls : List Adapter) : ProcessOutcome :=
  let o' : Order := { o with status := "failed", error_message := some e }
  ⟨{ st with orders := setOrder st.orders o' }, [.orderFailed o.id e], calls⟩

/-- process_order (main.py). The three adapter call outcomes and the
outcome of json.loads(order.package_details) (evaluated between the CMS
and WMS calls, while building the WMS argument) are passed in as Except
values: for the real adapters of services.py they are always Except.ok
(see the adapter theorems below), while a test double may raise, which the
single try/except of the source turns into the failed path. An absent
order id returns immediately with no mutation, no event and no call. -/
def process_order (st : DBState) (order_id : String)
    (cmsCall : Except String CMSResult)
    (detailsParse : Except String Unit)
    (wmsCall : Except String WMSResult)
    (rosCall : Except String ROSResult) : ProcessOutcome :=
  match findOrder st.orders order_id with
  | none => ⟨st, [], []⟩
  | some o =>
    match cmsCall with
    | .error e => processOrderFailed st o e [.cms]
    | .ok cmsR =>
      match detailsParse with
      | .error e => processOrderFailed st o e [.cms]
      | .ok _ =>
        match wmsCall with
        | .error e => processOrderFailed st o e [.cms, .wms]
        | .ok wmsR =>
          match rosCall with
          | .error e => processOrderFailed st o e [.cms, .wms, .ros]
          | .ok rosR =>
            let o' : Order :=
              { o with
                status := "processing"
                cms_reference := cmsR.reference_id
                wms_reference := wmsR.package_id
                ros_reference := rosR.route_point_id }
            ⟨{ st with orders := setOrder st.orders o' },
             [.orderProcessed order_id "processing"], [.cms, .wms, .ros]⟩

/-- Errors update_delivery_status raises as HTTPException before any
mutation: 403 when the caller is not a driver, 404 when the order id is
unknown. -/
inductive ApiError
  | forbidden
  | notFound
deriving Repr, DecidableEq

/-- Output of one update_delivery_status run. -/
structure ReportOutcome where
  result : Except ApiError Unit
  state : DBState
  events : List Event
deriving Repr, DecidableEq

/-- POST /orders/\x7border_id\x7d/update-status (main.py
update_delivery_status): reject non-drivers with 403; 404 when the order
is absent; otherwise overwrite the order's status with the caller-supplied
string (no validation against the status enumeration and no transition
check), append a DeliveryUpdate row, commit, push a websocket notification
to the order's client and invoke the WMS update-status call. -/
def update_delivery_status (st : DBState) (order_id : String)
    (user_type : String) (driver_id : Nat)
    (status : String) (notes location : Option String) : ReportOutcome :=
  if user_type != "driver" then ⟨.error .forbidden, st, []⟩
  else
    match findOrder st.orders order_id with
    | none => ⟨.error .notFound, st, []⟩
    | some o =>
      let du : DeliveryUpdate :=
        { order_id := order_id
          driver_id := driver_id
          status := status
          notes := notes
          location := location }
      let o' : Order := { o with status := status }
      ⟨.ok (),
       { orders := setOrder st.orders o',
         delivery_updates := st.delivery_updates ++ [du] },
       [.livePush o.client_id order_id status, .wmsStatusUpdate order_id status]⟩

/-- One operation of the system, for reachability of persistent states:
an order creation, a process_order run (with its environment-determined
call outcomes), or a driver status report. -/
inductive Op
  | create (order_id : String) (client_id : Nat)
      (pickup delivery details priority : String)
  | process (order_id : String) (cmsCall : Except String CMSResult)
      (detailsParse : Except String Unit)
      (wmsCall : Except String WMSResult) (rosCall : Except String ROSResult)
  | report (order_id : String) (user_type : String) (driver_id : Nat)
      (status : String) (notes location : Option String)
deriving Repr, DecidableEq

/-- Effect of one operation on the persistent state. -/
def runOp (st : DBState) (op : Op) : DBState :=
  match op with
  | .create oid c p d det pr => create_order st oid c p d det pr
  | .process oid cc dp wc rc => (process_order st oid cc dp wc rc).state
  | .report oid ut did s n l => (update_delivery_status st oid ut did s n l).state

/-- Persistent state reached by a sequence of operations. -/
def runTrace (st : DBState) (ops : List Op) : DBState :=
  ops.foldl runOp st

/-- Empty database. -/
def initState : DBState := ⟨[], []⟩

/-! Helper lemmas about the persistence primitives. -/

theorem findOrder_id {l : List Order} {oid : String} {o : Order}
    (h : findOrder l oid = some o) : o.id = oid := by
  unfold findOrder at h
  have hp : (o.id == oid) = true := by simpa using List.find?_some h
  exact eq_of_beq hp

theorem findOrder_mem {l : List Order} {oid : String} {o : Order}
    (h : findOrder l oid = some o) : o ∈ l := by
  unfold findOrder at h
  exact List.mem_of_find?_eq_some h

theorem mem_setOrder {l : List Order} {u o' : Order}
    (h : o' ∈ setOrder l u) : o' = u ∨ o' ∈ l := by
  rcases List.mem_map.mp h with ⟨x, hx, hfx⟩
  by_cases hid : (x.id == u.id) = true
  · left
    rw [← hfx]
    simp [hid]
  · right
    rw [← hfx]
    simp [hid]
    exact hx

theorem findOrder_setOrder {l : List Order} {oid : String} {o : Order}
    (u : Order) (h : findOrder l oid = some o) (hu : u.id = oid) :
    findOrder (setOrder l u) oid = some u := by
  induction l with
  | nil => simp [findOrder] at h
  | cons a t ih =>
    by_cases ha : (a.id == oid) = true
    · have haid : a.id = oid := eq_of_beq ha
      have hau : (a.id == u.id) = true := beq_iff_eq.mpr (haid.trans hu.symm)
      have huq : (u.id == oid) = true := beq_iff_eq.mpr hu
      simp [findOrder, setOrder, List.find?, hau, huq]
    · have hau : (a.id == u.id) = false := by
        refine beq_eq_false_iff_ne.mpr ?_
        intro hc
        exact ha (beq_iff_eq.mpr (hc.trans hu))
      have h' : findOrder t oid = some o := by
        simpa [findOrder, List.find?, ha] using h
      have := ih h'
      simpa [findOrder, setOrder, List.find?, hau, ha] using this

/-! Concrete fixtures used by witnesses and counterexamples. -/

/-- A submitted order as create_order persists it. -/
def sampleOrder : Order :=
  { id := "O1"
    client_id := 1
    pickup_address := "12 Lake Rd"
    delivery_address := "5 Galle Rd"
    package_details := "det"
    priority := "high"
    status := "submitted" }

/-- A database holding just sampleOrder. -/
def sampleState : DBState := ⟨[sampleOrder], []⟩

/-! Claim theorems. -/

/-- C4: for every order id and every transport behaviour, each of the three
register operations returns a result dictionary and never raises past the
adapter boundary (the adapter functions are total: every raised exception,
modelled by the attempt function returning Except.error, is caught by the
adapter's except-branch), and on any failure the returned reference id is
the fixed mock value derived from the order id alone — the right-hand
sides below mention only the order id, so two invocations with the same
order id under any failures yield the same synthesized ids. -/
theorem adapters_never_raise_and_synthesize_deterministically
    (order_id : String) (ecms : CMSEnv) (ewms : WMSEnv) (eros : ROSEnv)
    (e1 e2 e3 : String)
    (h1 : CMSService.submit_order_attempt order_id ecms = .error e1)
    (h2 : WMSService.add_package_attempt order_id ewms = .error e2)
    (h3 : ROSService.add_delivery_point_attempt order_id eros = .error e3) :
    CMSService.submit_order order_id ecms =
      ⟨some ("CMS_MOCK_" ++ order_id), "submitted"⟩
    ∧ WMSService.add_package order_id ewms =
      ⟨some ("WMS_MOCK_" ++ order_id), some "A-01-15", some "received"⟩
    ∧ ROSService.add_delivery_point order_id eros =
      ⟨some ("ROS_MOCK_" ++ order_id), some "14:00", some 1⟩ := by
  unfold CMSService.submit_order WMSService.add_package
    ROSService.add_delivery_point
  rw [h1, h2, h3]
  exact ⟨rfl, rfl, rfl⟩

/-- Witness for C4 at a concrete timed-out transport. -/
theorem adapters_never_raise_and_synthesize_deterministically_witness :
    CMSService.submit_order "O1" (.exn "timeout") =
      ⟨some ("CMS_MOCK_" ++ "O1"), "submitted"⟩
    ∧ WMSService.add_package "O1" (.tcpFail "refused") =
      ⟨some ("WMS_MOCK_" ++ "O1"), some "A-01-15", some "received"⟩
    ∧ ROSService.add_delivery_point "O1" (.errStatus 500) =
      ⟨some ("ROS_MOCK_" ++ "O1"), some "14:00", some 1⟩ :=
  adapters_never_raise_and_synthesize_deterministically "O1"
    (.exn "timeout") (.tcpFail "refused") (.errStatus 500)
    "timeout" ("TCP communication failed: " ++ "refused") ("ROS error: " ++ toString 500)
    rfl rfl rfl

/-- C5 counterexample: the fallback result of a failed CMS call carries no
degraded flag. The result dictionary of a transport failure for order O1
is byte-for-byte identical to the result of a genuine 200 response whose
ReferenceId element reads CMS_MOCK_O1, so nothing in the returned object
distinguishes the degraded call from a genuine success. -/
theorem degraded_result_indistinguishable_counterexample :
    CMSService.submit_order_attempt "O1" (.exn "timeout") = .error "timeout"
    ∧ CMSService.submit_order_attempt "O1"
        (.ok200 (.present (some "CMS_MOCK_O1"))) =
        .ok ⟨some "CMS_MOCK_O1", "submitted"⟩
    ∧ CMSService.submit_order "O1" (.exn "timeout") =
        CMSService.submit_order "O1" (.ok200 (.present (some "CMS_MOCK_O1"))) := by
  decide

/-- C5 (amended): the fallback path of each adapter marks its result only
through the synthesized reference id, which embeds a MOCK marker derived
from the order id (CMS_MOCK_/WMS_MOCK_/ROS_MOCK_ followed by the order
id); the result dictionaries carry no dedicated degraded flag, and a
genuine success whose server-supplied reference equals the synthesized
string is indistinguishable from the fallback (last conjunct). -/
theorem fallback_results_carry_mock_marker
    (order_id : String) (ecms : CMSEnv) (ewms : WMSEnv) (eros : ROSEnv)
    (e1 e2 e3 : String)
    (h1 : CMSService.submit_order_attempt order_id ecms = .error e1)
    (h2 : WMSService.add_package_attempt order_id ewms = .error e2)
    (h3 : ROSService.add_delivery_point_attempt order_id eros = .error e3) :
    (CMSService.submit_order order_id ecms).reference_id =
      some ("CMS_MOCK_" ++ order_id)
    ∧ (WMSService.add_package order_id ewms).package_id =
      some ("WMS_MOCK_" ++ order_id)
    ∧ (ROSService.add_delivery_point order_id eros).route_point_id =
      some ("ROS_MOCK_" ++ order_id)
    ∧ CMSService.submit_order order_id
        (.ok200 (.present (some ("CMS_MOCK_" ++ order_id)))) =
      CMSService.submit_order order_id ecms := by
  unfold CMSService.submit_order WMSService.add_package
    ROSService.add_delivery_point
  rw [h1, h2, h3]
  exact ⟨rfl, rfl, rfl, rfl⟩

/-- Witness for the amended C5 at concrete failing transports. -/
theorem fallback_results_carry_mock_marker_witness :
    (CMSService.submit_order "O2" (.errStatus 503)).reference_id =
      some ("CMS_MOCK_" ++ "O2")
    ∧ (WMSService.add_package "O2" (.badJson "bad payload")).package_id =
      some ("WMS_MOCK_" ++ "O2")
    ∧ (ROSService.add_delivery_point "O2" (.exn "refused")).route_point_id =
      some ("ROS_MOCK_" ++ "O2")
    ∧ CMSService.submit_order "O2"
        (.ok200 (.present (some ("CMS_MOCK_" ++ "O2")))) =
      CMSService.submit_order "O2" (.errStatus 503) :=
  fallback_results_carry_mock_marker "O2" (.errStatus 503)
    (.badJson "bad payload") (.exn "refused")
    ("CMS error: " ++ toString 503) "bad payload" "refused" rfl rfl rfl

/-- C7: a driver report on an order id absent from persistence yields the
404 NotFound error and leaves the database exactly as it was: no order is
modified, no DeliveryUpdate row is appended, and no push or WMS call
happens. -/
theorem update_delivery_status_notfound_no_mutation
    (st : DBState) (order_id : String) (driver_id : Nat) (status : String)
    (notes location : Option String)
    (h : findOrder st.orders order_id = none) :
    update_delivery_status st order_id "driver" driver_id status notes location =
      ⟨.error .notFound, st, []⟩ := by
  simp [update_delivery_status, h]

/-- Witness for C7 on the empty database. -/
theorem update_delivery_status_notfound_no_mutation_witness :
    update_delivery_status initState "O9" "driver" 2 "delivered" none none =
      ⟨.error .notFound, initState, []⟩ :=
  update_delivery_status_notfound_no_mutation initState "O9" 2 "delivered"
    none none rfl

/-- C8: MessageBroker.publish_message returns normally for every broker
state and every behaviour of the underlying publish: the early return when
the channel is absent and the try/except around basic_publish mean no
failure ever propagates to the caller, so a publish failure cannot make
submit or report fail. -/
theorem publish_message_never_raises (connected : Bool)
    (attempt : PublishAttempt) :
    ∃ outcome, MessageBroker.publish_message connected attempt = .ok outcome := by
  cases connected <;> cases attempt <;> exact ⟨_, rfl⟩

/-- C9: process_order on an order id absent from persistence returns
silently: the state is untouched, no event is published and no adapter is
invoked. -/
theorem process_order_missing_order_noop
    (st : DBState) (order_id : String)
    (cmsCall : Except String CMSResult) (detailsParse : Except String Unit)
    (wmsCall : Except String WMSResult) (rosCall : Except String ROSResult)
    (h : findOrder st.orders order_id = none) :
    process_order st order_id cmsCall detailsParse wmsCall rosCall =
      ⟨st, [], []⟩ := by
  unfold process_order
  rw [h]

/-- Witness for C9 on the empty database. -/
theorem process_order_missing_order_noop_witness :
    process_order initState "O9" (.error "boom") (.ok ())
      (.ok ⟨some "W", none, none⟩) (.error "x") = ⟨initState, [], []⟩ :=
  process_order_missing_order_noop initState "O9" (.error "boom") (.ok ())
    (.ok ⟨some "W", none, none⟩) (.error "x") rfl

/-- C10: a 200 CMS response whose body contains no ReferenceId element
yields the synthesized reference CMS_<order_id> (without the MOCK marker)
with status "submitted", produced by the genuine success path (first
conjunct: the try-block itself returns it, so the except-branch is not
involved), and the result is identical to that of a genuine response
carrying the server reference CMS_<order_id> (last conjunct). -/
theorem cms_success_without_reference_id_synthesizes_plain (order_id : String) :
    CMSService.submit_order_attempt order_id (.ok200 .absent) =
      .ok ⟨some ("CMS_" ++ order_id), "submitted"⟩
    ∧ CMSService.submit_order order_id (.ok200 .absent) =
      ⟨some ("CMS_" ++ order_id), "submitted"⟩
    ∧ CMSService.submit_order order_id (.ok200 .absent) =
      CMSService.submit_order order_id
        (.ok200 (.present (some ("CMS_" ++ order_id)))) :=
  ⟨rfl, rfl, rfl⟩

/-- Outcome of running the pipeline on sampleOrder where every leg
genuinely succeeds but the warehouse system's JSON reply carries no
package_id key (json.loads of an empty object). -/
def emptyWmsOutcome : ProcessOutcome :=
  process_order sampleState "O1"
    (.ok (CMSService.submit_order "O1" (.ok200 (.present (some "C1")))))
    (.ok ())
    (.ok (WMSService.add_package "O1" (.okJson none none none)))
    (.ok (ROSService.add_delivery_point "O1" (.ok201 (.present (some "R1")) none none)))

/-- C1 counterexample: the pipeline can terminate in status "processing"
with a reference unset. With a genuine WMS success (the try-block returns
normally, first conjunct) whose JSON reply lacks the package_id key,
process_order commits status "processing" while wms_reference stays none,
contradicting the claim that the processing outcome always has all three
references set. -/
theorem process_order_success_without_reference_counterexample :
    WMSService.add_package_attempt "O1" (.okJson none none none) =
      .ok ⟨none, none, none⟩
    ∧ emptyWmsOutcome.state.orders.map Order.status = ["processing"]
    ∧ emptyWmsOutcome.state.orders.map Order.wms_reference = [none] := by
  decide

/-- C1 (amended): for every order present in persistence and every
behaviour of the three legs, process_order leaves the order in status
"processing" or "failed", never "submitted"; in the failed case
error_message is set; in the processing case each reference equals the
corresponding field of the adapter's returned dictionary — set on every
fallback, but possibly unset when a genuine success response omits the
reference field. -/
theorem process_order_terminal_status
    (st : DBState) (order_id : String) (o : Order)
    (cmsCall : Except String CMSResult) (detailsParse : Except String Unit)
    (wmsCall : Except String WMSResult) (rosCall : Except String ROSResult)
    (h : findOrder st.orders order_id = some o) :
    ∃ o', findOrder
        (process_order st order_id cmsCall detailsParse wmsCall rosCall).state.orders
        order_id = some o'
      ∧ (o'.status = "processing" ∨ o'.status = "failed")
      ∧ o'.status ≠ "submitted"
      ∧ (o'.status = "failed" → o'.error_message.isSome = true)
      ∧ (o'.status = "processing" →
          ∃ cmsR wmsR rosR,
            cmsCall = .ok cmsR ∧ wmsCall = .ok wmsR ∧ rosCall = .ok rosR
            ∧ o'.cms_reference = cmsR.reference_id
            ∧ o'.wms_reference = wmsR.package_id
            ∧ o'.ros_reference = rosR.route_point_id) := by
  have hid := findOrder_id h
  unfold process_order
  rw [h]
  cases cmsCall with
  | error e =>
    refine ⟨_, findOrder_setOrder _ h hid, Or.inr rfl, ?_, fun _ => rfl, ?_⟩
    · simp [processOrderFailed]
    · intro hc
      simp [processOrderFailed] at hc
  | ok cmsR =>
    cases detailsParse with
    | error e =>
      refine ⟨_, findOrder_setOrder _ h hid, Or.inr rfl, ?_, fun _ => rfl, ?_⟩
      · simp [processOrderFailed]
      · intro hc
        simp [processOrderFailed] at hc
    | ok _ =>
      cases wmsCall with
      | error e =>
        refine ⟨_, findOrder_setOrder _ h hid, Or.inr rfl, ?_, fun _ => rfl, ?_⟩
        · simp [processOrderFailed]
        · intro hc
          simp [processOrderFailed] at hc
      | ok wmsR =>
        cases rosCall with
        | error e =>
          refine ⟨_, findOrder_setOrder _ h hid, Or.inr rfl, ?_, fun _ => rfl, ?_⟩
          · simp [processOrderFailed]
          · intro hc
            simp [processOrderFailed] at hc
        | ok rosR =>
          refine ⟨_, findOrder_setOrder _ h hid, Or.inl rfl, ?_, ?_,
            fun _ => ⟨cmsR, wmsR, rosR, rfl, rfl, rfl, rfl, rfl, rfl⟩⟩
          · simp
          · intro hc
            simp at hc

/-- Witness for the amended C1 on sampleState with all legs succeeding. -/
theorem process_order_terminal_status_witness :
    ∃ o', findOrder
        (process_order sampleState "O1"
          (.ok ⟨some "C1", "submitted"⟩) (.ok ())
          (.ok ⟨some "W1", none, none⟩)
          (.ok ⟨some "R1", none, none⟩)).state.orders "O1" = some o'
      ∧ (o'.status = "processing" ∨ o'.status = "failed")
      ∧ o'.status ≠ "submitted"
      ∧ (o'.status = "failed" → o'.error_message.isSome = true)
      ∧ (o'.status = "processing" →
          ∃ cmsR wmsR rosR,
            (Except.ok ⟨some "C1", "submitted"⟩ : Except String CMSResult) = .ok cmsR
            ∧ (Except.ok ⟨some "W1", none, none⟩ : Except String WMSResult) = .ok wmsR
            ∧ (Except.ok ⟨some "R1", none, none⟩ : Except String ROSResult) = .ok rosR
            ∧ o'.cms_reference = cmsR.reference_id
            ∧ o'.wms_reference = wmsR.package_id
            ∧ o'.ros_reference = rosR.route_point_id) :=
  process_order_terminal_status sampleState "O1" sampleOrder
    (.ok ⟨some "C1", "submitted"⟩) (.ok ())
    (.ok ⟨some "W1", none, none⟩) (.ok ⟨some "R1", none, none⟩) (by decide)

/-- Outcome of the spec's O1 scenario: the CMS leg hard-fails with
ConnectionRefused while the WMS and ROS adapters would succeed normally. -/
def cmsHardFailOutcome : ProcessOutcome :=
  process_order sampleState "O1" (.error "ConnectionRefused") (.ok ())
    (.ok (WMSService.add_package "O1"
      (.okJson (some "WMS_1") (some "A-01-15") (some "received"))))
    (.ok (ROSService.add_delivery_point "O1"
      (.ok201 (.present (some "ROS_1")) none none)))

/-- C2 counterexample: in the spec's O1 scenario (CMS hard-fails with
ConnectionRefused, WMS and ROS would succeed), the single try/except of
process_order short-circuits at the first raise: the final status is
"failed" with the error text recorded, but only the CMS call was
attempted — the WMS and ROS calls never run and their references stay
unset, contradicting the claim that they are attempted and persisted. -/
theorem cms_hard_failure_short_circuits_counterexample :
    cmsHardFailOutcome.state.orders.map Order.status = ["failed"]
    ∧ cmsHardFailOutcome.state.orders.map Order.error_message =
        [some "ConnectionRefused"]
    ∧ cmsHardFailOutcome.state.orders.map Order.wms_reference = [none]
    ∧ cmsHardFailOutcome.state.orders.map Order.ros_reference = [none]
    ∧ cmsHardFailOutcome.calls = [Adapter.cms]
    ∧ Adapter.wms ∉ cmsHardFailOutcome.calls
    ∧ Adapter.ros ∉ cmsHardFailOutcome.calls := by
  decide

/-- C2 (amended): if the CMS leg raises a hard error during submit, the
order ends in status "failed" with error_message equal to that error text,
but process_order short-circuits: the WMS and ROS adapters are not
invoked (the call trace is exactly the CMS call) and all three references
keep their previous values — in particular the CMS reference stays unset
for a freshly submitted order. -/
theorem cms_hard_failure_fails_order_without_other_legs
    (st : DBState) (order_id : String) (o : Order) (e : String)
    (detailsParse : Except String Unit)
    (wmsCall : Except String WMSResult) (rosCall : Except String ROSResult)
    (h : findOrder st.orders order_id = some o) :
    ∃ o', findOrder
        (process_order st order_id (.error e) detailsParse wmsCall rosCall).state.orders
        order_id = some o'
      ∧ o'.status = "failed"
      ∧ o'.error_message = some e
      ∧ o'.cms_reference = o.cms_reference
      ∧ o'.wms_reference = o.wms_reference
      ∧ o'.ros_reference = o.ros_reference
      ∧ (process_order st order_id (.error e) detailsParse wmsCall rosCall).calls =
          [Adapter.cms] := by
  have hid := findOrder_id h
  unfold process_order
  rw [h]
  exact ⟨_, findOrder_setOrder _ h hid, rfl, rfl, rfl, rfl, rfl, rfl⟩

/-- Witness for the amended C2 in the spec's O1 scenario. -/
theorem cms_hard_failure_fails_order_without_other_legs_witness :
    ∃ o', findOrder
        (process_order sampleState "O1" (.error "ConnectionRefused") (.ok ())
          (.ok ⟨some "W1", none, none⟩)
          (.ok ⟨some "R1", none, none⟩)).state.orders "O1" = some o'
      ∧ o'.status = "failed"
      ∧ o'.error_message = some "ConnectionRefused"
      ∧ o'.cms_reference = sampleOrder.cms_reference
      ∧ o'.wms_reference = sampleOrder.wms_reference
      ∧ o'.ros_reference = sampleOrder.ros_reference
      ∧ (process_order sampleState "O1" (.error "ConnectionRefused") (.ok ())
          (.ok ⟨some "W1", none, none⟩)
          (.ok ⟨some "R1", none, none⟩)).calls = [Adapter.cms] :=
  cms_hard_failure_fails_order_without_other_legs sampleState "O1" sampleOrder
    "ConnectionRefused" (.ok ()) (.ok ⟨some "W1", none, none⟩)
    (.ok ⟨some "R1", none, none⟩) (by decide)

/-- A database whose one order has already progressed to status
"delivered", reached by a creation followed by a driver report. -/
def deliveredState : DBState :=
  runTrace initState
    [Op.create "O1" 1 "12 Lake Rd" "5 Galle Rd" "det" "normal",
     Op.report "O1" "driver" 2 "delivered" none none]

/-- Pipeline run on the delivered order with all legs succeeding. -/
def deliveredOutcome : ProcessOutcome :=
  process_order deliveredState "O1"
    (.ok (CMSService.submit_order "O1" (.ok200 (.present (some "C1")))))
    (.ok ())
    (.ok (WMSService.add_package "O1" (.okJson (some "W1") none none)))
    (.ok (ROSService.add_delivery_point "O1" (.ok201 (.present (some "R1")) none none)))

/-- C6 counterexample: process_order performs no status validation. Run on
an order already in status "delivered", it still invokes all three
adapters and rewrites the order to status "processing", contradicting the
claim that a non-submitted order is left untouched with no adapter
invoked. -/
theorem process_order_no_status_validation_counterexample :
    deliveredState.orders.map Order.status = ["delivered"]
    ∧ deliveredOutcome.calls = [Adapter.cms, Adapter.wms, Adapter.ros]
    ∧ deliveredOutcome.state.orders.map Order.status = ["processing"]
    ∧ deliveredOutcome.state ≠ deliveredState := by
  decide

/-- C6 (amended): the only validation process_order performs is existence
of the order id; for every present order, whatever its current status, the
CMS adapter call is reached and the order's status is overwritten to
"processing" or "failed". -/
theorem process_order_processes_any_present_order
    (st : DBState) (order_id : String) (o : Order)
    (cmsCall : Except String CMSResult) (detailsParse : Except String Unit)
    (wmsCall : Except String WMSResult) (rosCall : Except String ROSResult)
    (h : findOrder st.orders order_id = some o) :
    Adapter.cms ∈ (process_order st order_id cmsCall detailsParse wmsCall rosCall).calls
    ∧ ∃ o', findOrder
        (process_order st order_id cmsCall detailsParse wmsCall rosCall).state.orders
        order_id = some o'
      ∧ (o'.status = "processing" ∨ o'.status = "failed") := by
  have hid := findOrder_id h
  unfold process_order
  rw [h]
  cases cmsCall with
  | error e =>
    refine ⟨?_, _, findOrder_setOrder _ h hid, Or.inr rfl⟩
    simp [processOrderFailed]
  | ok cmsR =>
    cases detailsParse with
    | error e =>
      refine ⟨?_, _, findOrder_setOrder _ h hid, Or.inr rfl⟩
      simp [processOrderFailed]
    | ok _ =>
      cases wmsCall with
      | error e =>
        refine ⟨?_, _, findOrder_setOrder _ h hid, Or.inr rfl⟩
        simp [processOrderFailed]
      | ok wmsR =>
        cases rosCall with
        | error e =>
          refine ⟨?_, _, findOrder_setOrder _ h hid, Or.inr rfl⟩
          simp [processOrderFailed]
        | ok rosR =>
          refine ⟨?_, _, findOrder_setOrder _ h hid, Or.inl rfl⟩
          simp

/-- Witness for the amended C6 on the delivered order. -/
theorem process_order_processes_any_present_order_witness :
    Adapter.cms ∈ (process_order deliveredState "O1"
        (.ok ⟨some "C1", "submitted"⟩) (.ok ())
        (.ok ⟨some "W1", none, none⟩) (.ok ⟨some "R1", none, none⟩)).calls
    ∧ ∃ o', findOrder
        (process_order deliveredState "O1"
          (.ok ⟨some "C1", "submitted"⟩) (.ok ())
          (.ok ⟨some "W1", none, none⟩)
          (.ok ⟨some "R1", none, none⟩)).state.orders "O1" = some o'
      ∧ (o'.status = "processing" ∨ o'.status = "failed") :=
  process_order_processes_any_present_order deliveredState "O1"
    { id := "O1"
      client_id := 1
      pickup_address := "12 Lake Rd"
      delivery_address := "5 Galle Rd"
      package_details := "det"
      priority := "normal"
      status := "delivered" }
    (.ok ⟨some "C1", "submitted"⟩) (.ok ())
    (.ok ⟨some "W1", none, none⟩) (.ok ⟨some "R1", none, none⟩) (by decide)

/-! Reachability invariant machinery for C3. -/

/-- Status strings supplied by driver reports in a trace (the source
accepts any such string unchecked). -/
def reportedStatuses (ops : List Op) : List String :=
  ops.filterMap fun op =>
    match op with
    | .report _ _ _ s _ _ => some s
    | _ => none

/-- reference_id fields of CMS call results that returned (rather than
raised) in a trace; these include synthesized fallback values. -/
def cmsRefs (ops : List Op) : List (Option String) :=
  ops.filterMap fun op =>
    match op with
    | .process _ (Except.ok r) _ _ _ => some r.reference_id
    | _ => none

/-- package_id fields of WMS call results that returned in a trace. -/
def wmsRefs (ops : List Op) : List (Option String) :=
  ops.filterMap fun op =>
    match op with
    | .process _ _ _ (Except.ok r) _ => some r.package_id
    | _ => none

/-- route_point_id fields of ROS call results that returned in a trace. -/
def rosRefs (ops : List Op) : List (Option String) :=
  ops.filterMap fun op =>
    match op with
    | .process _ _ _ _ (Except.ok r) => some r.route_point_id
    | _ => none

/-- What actually holds of every persisted order reachable by a trace:
its status is "submitted", "processing", "failed", or some string a driver
reported in the trace; and each external reference is unset or equal to
the corresponding field of an adapter result that a process step of the
trace returned (a genuine success or a synthesized fallback alike). -/
def OrderConsistent (ops : List Op) (o : Order) : Prop :=
  (o.status = "submitted" ∨ o.status = "processing" ∨ o.status = "failed"
    ∨ o.status ∈ reportedStatuses ops)
  ∧ (o.cms_reference = none ∨ o.cms_reference ∈ cmsRefs ops)
  ∧ (o.wms_reference = none ∨ o.wms_reference ∈ wmsRefs ops)
  ∧ (o.ros_reference = none ∨ o.ros_reference ∈ rosRefs ops)

theorem mem_reportedStatuses {ops : List Op} {oid ut : String} {did : Nat}
    {s : String} {n l : Option String}
    (h : Op.report oid ut did s n l ∈ ops) : s ∈ reportedStatuses ops :=
  List.mem_filterMap.mpr ⟨_, h, rfl⟩

theorem mem_cmsRefs {ops : List Op} {oid : String} {r : CMSResult}
    {dp : Except String Unit} {wc : Except String WMSResult}
    {rc : Except String ROSResult}
    (h : Op.process oid (.ok r) dp wc rc ∈ ops) :
    r.reference_id ∈ cmsRefs ops :=
  List.mem_filterMap.mpr ⟨_, h, rfl⟩

theorem mem_wmsRefs {ops : List Op} {oid : String}
    {cc : Except String CMSResult} {dp : Except String Unit} {r : WMSResult}
    {rc : Except String ROSResult}
    (h : Op.process oid cc dp (.ok r) rc ∈ ops) :
    r.package_id ∈ wmsRefs ops :=
  List.mem_filterMap.mpr ⟨_, h, rfl⟩

theorem mem_rosRefs {ops : List Op} {oid : String}
    {cc : Except String CMSResult} {dp : Except String Unit}
    {wc : Except String WMSResult} {r : ROSResult}
    (h : Op.process oid cc dp wc (.ok r) ∈ ops) :
    r.route_point_id ∈ rosRefs ops :=
  List.mem_filterMap.mpr ⟨_, h, rfl⟩

/-- One operation preserves OrderConsistent, relative to any operation
universe U containing it. -/
theorem runOp_consistent {U : List Op} {op : Op} (hop : op ∈ U)
    {st : DBState} (h : ∀ o ∈ st.orders, OrderConsistent U o) :
    ∀ o ∈ (runOp st op).orders, OrderConsistent U o := by
  cases op with
  | create oid c p d det pr =>
    intro o ho
    cases hf : findOrder st.orders oid with
    | some o0 =>
      simp [runOp, create_order, hf] at ho
      exact h o ho
    | none =>
      simp [runOp, create_order, hf] at ho
      rcases ho with ho | ho
      · exact h o ho
      · subst ho
        exact ⟨Or.inl rfl, Or.inl rfl, Or.inl rfl, Or.inl rfl⟩
  | process oid cc dp wc rc =>
    intro o ho
    cases hf : findOrder st.orders oid with
    | none =>
      simp [runOp, process_order, hf] at ho
      exact h o ho
    | some o0 =>
      have h0 := h o0 (findOrder_mem hf)
      cases cc with
      | error e =>
        simp [runOp, process_order, hf, processOrderFailed] at ho
        rcases mem_setOrder ho with rfl | hmem
        · exact ⟨Or.inr (Or.inr (Or.inl rfl)), h0.2.1, h0.2.2.1, h0.2.2.2⟩
        · exact h o hmem
      | ok cmsR =>
        cases dp with
        | error e =>
          simp [runOp, process_order, hf, processOrderFailed] at ho
          rcases mem_setOrder ho with rfl | hmem
          · exact ⟨Or.inr (Or.inr (Or.inl rfl)), h0.2.1, h0.2.2.1, h0.2.2.2⟩
          · exact h o hmem
        | ok u =>
          cases wc with
          | error e =>
            simp [runOp, process_order, hf, processOrderFailed] at ho
            rcases mem_setOrder ho with rfl | hmem
            · exact ⟨Or.inr (Or.inr (Or.inl rfl)), h0.2.1, h0.2.2.1, h0.2.2.2⟩
            · exact h o hmem
          | ok wmsR =>
            cases rc with
            | error e =>
              simp [runOp, process_order, hf, processOrderFailed] at ho
              rcases mem_setOrder ho with rfl | hmem
              · exact ⟨Or.inr (Or.inr (Or.inl rfl)), h0.2.1, h0.2.2.1, h0.2.2.2⟩
              · exact h o hmem
            | ok rosR =>
              simp [runOp, process_order, hf] at ho
              rcases mem_setOrder ho with rfl | hmem
              · exact ⟨Or.inr (Or.inl rfl), Or.inr (mem_cmsRefs hop),
                  Or.inr (mem_wmsRefs hop), Or.inr (mem_rosRefs hop)⟩
              · exact h o hmem
  | report oid ut did s n l =>
    intro o ho
    by_cases hut : (ut != "driver") = true
    · simp [runOp, update_delivery_status, hut] at ho
      exact h o ho
    · cases hf : findOrder st.orders oid with
      | none =>
        simp [runOp, update_delivery_status, hut, hf] at ho
        exact h o ho
      | some o0 =>
        have h0 := h o0 (findOrder_mem hf)
        simp [runOp, update_delivery_status, hut, hf] at ho
        rcases mem_setOrder ho with rfl | hmem
        · exact ⟨Or.inr (Or.inr (Or.inr (mem_reportedStatuses hop))),
            h0.2.1, h0.2.2.1, h0.2.2.2⟩
        · exact h o hmem

/-- Whole traces preserve OrderConsistent relative to a universe U
containing every executed operation. -/
theorem runTrace_consistent (U : List Op) :
    ∀ ops : List Op, (∀ op ∈ ops, op ∈ U) →
    ∀ st : DBState, (∀ o ∈ st.orders, OrderConsistent U o) →
    ∀ o ∈ (runTrace st ops).orders, OrderConsistent U o := by
  intro ops
  induction ops with
  | nil =>
    intro _ st h
    simpa [runTrace] using h
  | cons op rest ih =>
    intro hsub st h
    have h1 := runOp_consistent (hsub op (List.mem_cons_self op rest)) h
    have hstep : runTrace st (op :: rest) = runTrace (runOp st op) rest := rfl
    rw [hstep]
    exact ih (fun x hx => hsub x (List.mem_cons_of_mem op hx)) (runOp st op) h1

/-- A reachable state whose order's status is the driver-reported string
"cancelled", outside the status enumeration. -/
def statusEscapeState : DBState :=
  runTrace initState
    [Op.create "O1" 1 "12 Lake Rd" "5 Galle Rd" "det" "normal",
     Op.report "O1" "driver" 2 "cancelled" none none]

/-- A reachable state whose order's CMS reference is the synthesized
fallback of a CMS call that failed at the transport level. -/
def mockRefState : DBState :=
  runTrace initState
    [Op.create "O2" 1 "12 Lake Rd" "5 Galle Rd" "det" "normal",
     Op.process "O2"
       (.ok (CMSService.submit_order "O2" (.exn "timeout"))) (.ok ())
       (.ok (WMSService.add_package "O2" (.tcpFail "refused")))
       (.ok (ROSService.add_delivery_point "O2" (.exn "down")))]

/-- C3 counterexample: the claimed invariant fails twice on reachable
states. A driver report may persist any status string — here "cancelled",
outside the claimed six-value enumeration (update_delivery_status performs
no validation). And a transport failure persists the synthesized fallback
reference CMS_MOCK_O2 even though the CMS call failed (the try-block
raised, last two conjuncts), so a persisted reference is not always a
value from a genuinely successful call. -/
theorem reachable_state_violates_claimed_invariant_counterexample :
    statusEscapeState.orders.map Order.status = ["cancelled"]
    ∧ "cancelled" ∉ ["submitted", "processing", "in_warehouse",
        "out_for_delivery", "delivered", "failed"]
    ∧ mockRefState.orders.map Order.cms_reference = [some "CMS_MOCK_O2"]
    ∧ CMSService.submit_order_attempt "O2" (.exn "timeout") = .error "timeout"
    ∧ CMSService.submit_order "O2" (.exn "timeout") =
        ⟨some "CMS_MOCK_O2", "submitted"⟩ := by
  decide

/-- C3 (amended): every order in a state reachable by any sequence of
creations, pipeline runs and driver reports satisfies OrderConsistent:
its status is "submitted", "processing", "failed" or one of the strings
drivers reported in the trace (the source does not confine reports to the
six-value enumeration), and each external reference is unset or the
corresponding field of an adapter result returned during the trace —
including synthesized fallbacks of failed calls, which the pipeline
persists exactly like genuine references. -/
theorem reachable_order_invariant (ops : List Op) :
    ∀ o ∈ (runTrace initState ops).orders, OrderConsistent ops o :=
  runTrace_consistent ops ops (fun _ hx => hx) initState
    (by intro o ho; simp [initState] at ho)

/-- Witness for the amended C3 on a one-creation trace. -/
theorem reachable_order_invariant_witness :
    OrderConsistent [Op.create "O1" 1 "12 Lake Rd" "5 Galle Rd" "det" "high"]
      sampleOrder :=
  reachable_order_invariant
    [Op.create "O1" 1 "12 Lake Rd" "5 Galle Rd" "det" "high"]
    sampleOrder (by decide)

end SwiftLogistics
